import Mathlib

/-!
Verification of the Spotify churn-prediction front-end
(src/JangWansik/app.py) against its specification.

The numeric core of the app (the feature-engineering block at lines
107-109 and the threshold decision at lines 117-118) works on Python
floats; we embed it over `ℚ`, so each arithmetic formula is carried over
exactly. The per-request control flow of the prediction section
(lines 87-144) is embedded as a function from the loaded pipeline and
the raw inputs to an explicit outcome value.
-/

namespace SpotifyChurn

/-- Gender options of the input form (app.py line 67). -/
inductive Gender
  | male
  | female
  | other
deriving DecidableEq, Repr

/-- Country options of the input form (app.py line 68). -/
inductive Country
  | us
  | uk
  | de
  | fr
  | ca
  | india
deriving DecidableEq, Repr

/-- Subscription options of the input form (app.py line 71). -/
inductive SubscriptionType
  | free
  | premium
  | student
deriving DecidableEq, Repr

/-- Device options of the input form (app.py line 72). -/
inductive DeviceType
  | mobile
  | web
  | desktop
deriving DecidableEq, Repr

/-- The raw attributes collected by the input form (app.py lines 62-103):
the columns of the `input_data` DataFrame before feature engineering. -/
structure RawUserProfile where
  age : ℕ
  gender : Gender
  country : Country
  subscription_type : SubscriptionType
  device_type : DeviceType
  listening_time : ℚ
  songs_played_per_day : ℕ
  skip_rate : ℚ
  ads_listened_per_week : ℕ
  offline_listening : ℕ
deriving DecidableEq, Repr

/-- The DataFrame after the feature-engineering block (app.py lines
105-109): all raw columns plus the three derived columns. -/
structure FeatureVector extends RawUserProfile where
  ad_burden : ℚ
  satisfaction_score : ℚ
  time_per_song : ℚ
deriving DecidableEq, Repr

/-- The feature-engineering block (app.py lines 107-109):

    input_data[ad_burden] = ads_listened_per_week / (listening_time + 1)
    input_data[satisfaction_score] = songs_played_per_day * (1 - skip_rate)
    input_data[time_per_song] = listening_time / (songs_played_per_day + 1)
-/
def deriveFeatures (p : RawUserProfile) : FeatureVector :=
  { p with
    ad_burden := (p.ads_listened_per_week : ℚ) / (p.listening_time + 1)
    satisfaction_score := (p.songs_played_per_day : ℚ) * (1 - p.skip_rate)
    time_per_song := p.listening_time / ((p.songs_played_per_day : ℚ) + 1) }

/-- The decision threshold (app.py line 117): `threshold = 0.35`. -/
def threshold : ℚ := 0.35

/-- The thresholding rule with an explicit cutoff `t`:
`1 if churn_proba >= t else 0` (app.py line 118, with the cutoff
abstracted so alternative cutoffs can be compared). -/
def predictionAt (t churn_proba : ℚ) : ℕ :=
  if t ≤ churn_proba then 1 else 0

/-- The prediction of the app (app.py line 118):
`prediction = 1 if churn_proba >= threshold else 0`. -/
def prediction (churn_proba : ℚ) : ℕ :=
  predictionAt threshold churn_proba

/-- The recommended-action bucket (app.py lines 129-136): churn-risk maps
to the fixed ordered retention-action list, non-risk to no actions. -/
def recommendedActions (pred : ℕ) : List String :=
  if pred = 1 then
    ["3개월 할인 쿠폰 푸시 알림 발송",
     "최근 많이 스킵한 장르를 제외한 맞춤 플레이리스트 추천"]
  else []

/-- A successful prediction as displayed (app.py lines 120-136). -/
structure PredictionResult where
  churn_probability : ℚ
  is_churn_risk : ℕ
  recommended_actions : List String
deriving DecidableEq, Repr

/-- The two failure kinds the spec distinguishes for the scoring call.
The embedded classifier reports which kind a failure is, so we can ask
whether the app's handling preserves that distinction. -/
inductive FailureKind
  | schemaMismatch
  | inference
deriving DecidableEq, Repr

/-- A failure raised by `pipeline.predict_proba`: its kind together with
the exception text that Python would interpolate into the message. -/
structure ScoringFailure where
  kind : FailureKind
  message : String
deriving DecidableEq, Repr

/-- The external classifier artifact: a black box taking the feature
DataFrame to the churn-class probability, or failing. -/
def Classifier := FeatureVector → Except ScoringFailure ℚ

/-- `load_model_pipeline` (app.py lines 38-46): loading the artifact
either yields the pipeline or, on failure, shows an error and returns
`None`. We embed the load attempt's result as an `Except` and the
function's return value as an `Option`. -/
def load_model_pipeline (artifact : Except String Classifier) :
    Option Classifier :=
  match artifact with
  | .ok p => some p
  | .error _ => none

/-- The error message shown when the artifact load fails
(app.py line 45). -/
def loadErrorMessage : String :=
  "모델 파일을 찾을 수 없습니다. 먼저 모델 학습을 완료해주세요."

/-- The observable outcome of one press of the predict button
(app.py lines 87-144). -/
inductive AppOutcome
  | artifactLoadStop
  | shown (result : PredictionResult)
  | scoringError (message : String)
deriving DecidableEq, Repr

/-- One press of the predict button with an already-loaded (or failed)
pipeline (app.py lines 87-144): if the pipeline is `None` the app stops
(line 89); otherwise it derives the features, scores them, and either
shows the thresholded result (lines 114-136) or the generic error
message of the `except` handler (lines 142-144). -/
def run_prediction (pipeline : Option Classifier) (input : RawUserProfile) :
    AppOutcome :=
  match pipeline with
  | none => .artifactLoadStop
  | some c =>
    let features := deriveFeatures input
    match c features with
    | .ok churn_proba =>
      let pred := prediction churn_proba
      .shown ⟨churn_proba, pred, recommendedActions pred⟩
    | .error e => .scoringError ("예측 중 오류가 발생했습니다: " ++ e.message)

/-- The whole flow from artifact load to outcome
(app.py line 48 then lines 87-144). -/
def run_app (artifact : Except String Classifier) (input : RawUserProfile) :
    AppOutcome :=
  run_prediction (load_model_pipeline artifact) input

/-- End-to-end scenario 1 input from the spec: the form defaults. -/
def sampleProfile : RawUserProfile :=
  { age := 30
    gender := .male
    country := .us
    subscription_type := .free
    device_type := .mobile
    listening_time := 60
    songs_played_per_day := 20
    skip_rate := 0.3
    ads_listened_per_week := 5
    offline_listening := 0 }

/-- The zero-activity extreme of end-to-end scenario 2. -/
def zeroActivityProfile : RawUserProfile :=
  { sampleProfile with
    listening_time := 0
    songs_played_per_day := 0 }

end SpotifyChurn

namespace SpotifyChurn

/-- C1: for every `RawUserProfile`, the feature-engineering block computes
exactly `ad_burden = ads_listened_per_week / (listening_time + 1)`,
`satisfaction_score = songs_played_per_day * (1 - skip_rate)`,
`time_per_song = listening_time / (songs_played_per_day + 1)`, and adds
them to the feature vector while keeping every raw field unchanged. -/
theorem deriveFeatures_formulas (p : RawUserProfile) :
    (deriveFeatures p).ad_burden
        = (p.ads_listened_per_week : ℚ) / (p.listening_time + 1) ∧
    (deriveFeatures p).satisfaction_score
        = (p.songs_played_per_day : ℚ) * (1 - p.skip_rate) ∧
    (deriveFeatures p).time_per_song
        = p.listening_time / ((p.songs_played_per_day : ℚ) + 1) ∧
    (deriveFeatures p).toRawUserProfile = p :=
  ⟨rfl, rfl, rfl, rfl⟩

/-- C2: the threshold comparison is inclusive: the prediction flags
churn-risk exactly when `threshold ≤ churn_proba`; probability 0.35
classifies as churn-risk and 0.349999 as not-at-risk. -/
theorem prediction_threshold_inclusive :
    (∀ p : ℚ, prediction p = 1 ↔ threshold ≤ p) ∧
    prediction 0.35 = 1 ∧ prediction 0.349999 = 0 := by
  refine ⟨fun p => ?_, ?_, ?_⟩
  · unfold prediction predictionAt
    split <;> simp_all
  · norm_num [prediction, predictionAt, threshold]
  · norm_num [prediction, predictionAt, threshold]

/-- C3: the decision threshold is the named constant 0.35, not the naive
0.5 midpoint, and for every probability in `[0.35, 0.5)` the decision
under the constant differs from what the 0.5 cutoff would give. -/
theorem threshold_is_tuned_constant :
    threshold = 0.35 ∧ threshold ≠ 0.5 ∧
    ∀ p : ℚ, threshold ≤ p → p < 0.5 →
      predictionAt threshold p = 1 ∧ predictionAt 0.5 p = 0 := by
  refine ⟨rfl, by norm_num [threshold], fun p h1 h2 => ⟨?_, ?_⟩⟩
  · rw [predictionAt, if_pos h1]
  · rw [predictionAt, if_neg (by linarith)]

/-- Witness for C3 at the concrete probability 0.4. -/
theorem threshold_is_tuned_constant_witness :
    predictionAt threshold 0.4 = 1 ∧ predictionAt 0.5 0.4 = 0 :=
  threshold_is_tuned_constant.2.2 0.4 (by norm_num [threshold]) (by norm_num)

/-- C4: for every input with non-negative listening time (songs played is
a natural number, hence non-negative), both divisors of the derived
features are non-zero, so the derivation is total, and in the extreme
case of zero listening time and zero songs it yields
`ad_burden = ads_listened_per_week / 1` and `time_per_song = 0`. -/
theorem deriveFeatures_total (p : RawUserProfile)
    (h : 0 ≤ p.listening_time) :
    p.listening_time + 1 ≠ 0 ∧
    ((p.songs_played_per_day : ℚ) + 1) ≠ 0 ∧
    (p.listening_time = 0 → p.songs_played_per_day = 0 →
      (deriveFeatures p).ad_burden = (p.ads_listened_per_week : ℚ) / 1 ∧
      (deriveFeatures p).time_per_song = 0) := by
  have h1 : (0 : ℚ) < p.listening_time + 1 := by linarith
  have h2 : (0 : ℚ) < (p.songs_played_per_day : ℚ) + 1 := by positivity
  refine ⟨h1.ne', h2.ne', fun h0 hs => ⟨?_, ?_⟩⟩
  · simp [deriveFeatures, h0]
  · simp [deriveFeatures, h0]

/-- Witness for C4 at the zero-activity profile of scenario 2. -/
theorem deriveFeatures_total_witness :
    zeroActivityProfile.listening_time + 1 ≠ 0 ∧
    ((zeroActivityProfile.songs_played_per_day : ℚ) + 1) ≠ 0 ∧
    ((deriveFeatures zeroActivityProfile).ad_burden
        = (zeroActivityProfile.ads_listened_per_week : ℚ) / 1 ∧
      (deriveFeatures zeroActivityProfile).time_per_song = 0) := by
  have h := deriveFeatures_total zeroActivityProfile
    (by norm_num [zeroActivityProfile, sampleProfile])
  exact ⟨h.1, h.2.1,
    h.2.2 (by norm_num [zeroActivityProfile, sampleProfile])
          (by norm_num [zeroActivityProfile, sampleProfile])⟩

/-- C5: with the threshold held fixed, the prediction is monotonic in the
churn probability: if a probability classifies as churn-risk, every
larger probability does too. -/
theorem prediction_monotone (p1 p2 : ℚ) (hle : p1 ≤ p2)
    (h1 : prediction p1 = 1) : prediction p2 = 1 := by
  unfold prediction predictionAt at h1 ⊢
  split at h1
  · next h => rw [if_pos (le_trans h hle)]
  · exact absurd h1 (by norm_num)

/-- Witness for C5: 0.35 classifies as risk, hence so does 0.4. -/
theorem prediction_monotone_witness : prediction 0.4 = 1 :=
  prediction_monotone 0.35 0.4 (by norm_num)
    (by norm_num [prediction, predictionAt, threshold])

/-- C6: the feature derivation is deterministic: two invocations on
identical inputs produce identical derived feature vectors. -/
theorem deriveFeatures_deterministic (p1 p2 : RawUserProfile)
    (h : p1 = p2) : deriveFeatures p1 = deriveFeatures p2 := by
  rw [h]

/-- Witness for C6 at the sample profile. -/
theorem deriveFeatures_deterministic_witness :
    deriveFeatures sampleProfile = deriveFeatures sampleProfile :=
  deriveFeatures_deterministic sampleProfile sampleProfile rfl

/-- C7: on the scenario-1 input (listening_time 60, songs 20, skip_rate
0.3, ads 5) the derivation yields `ad_burden = 5/61`,
`satisfaction_score = 14`, `time_per_song = 60/21`. -/
theorem deriveFeatures_sample :
    (deriveFeatures sampleProfile).ad_burden = 5 / 61 ∧
    (deriveFeatures sampleProfile).satisfaction_score = 14 ∧
    (deriveFeatures sampleProfile).time_per_song = 60 / 21 := by
  refine ⟨?_, ?_, ?_⟩ <;> norm_num [deriveFeatures, sampleProfile]

/-- C8: when the artifact load fails, every prediction attempt stops with
the load-failure condition: no `PredictionResult` is shown, and the
outcome is distinct from every scoring-failure outcome (the classifier
is never invoked — the outcome is the same for every input). -/
theorem load_failure_blocks_prediction (msg : String)
    (input : RawUserProfile) :
    run_app (.error msg) input = .artifactLoadStop ∧
    (∀ r : PredictionResult, AppOutcome.artifactLoadStop ≠ .shown r) ∧
    (∀ m : String, AppOutcome.artifactLoadStop ≠ .scoringError m) :=
  ⟨rfl, fun _ h => AppOutcome.noConfusion h,
    fun _ h => AppOutcome.noConfusion h⟩

/-- C9 counterexample: a schema-mismatch failure and an inference failure
with the same underlying message produce the very same app outcome, so
the outcome carries no machine-readable distinction between the two
error kinds, refuting the claim as stated. -/
theorem scoring_kinds_indistinguishable :
    run_app (.ok fun _ => .error ⟨.schemaMismatch, "boom"⟩) sampleProfile
      = run_app (.ok fun _ => .error ⟨.inference, "boom"⟩) sampleProfile ∧
    FailureKind.schemaMismatch ≠ FailureKind.inference :=
  ⟨rfl, by decide⟩

/-- C9 amended: every failure during the scoring call is surfaced as a
user-visible error message containing the underlying cause, and a failed
prediction yields no `PredictionResult`; but the handling is one generic
catch-all, without a machine-readable error-kind distinction. -/
theorem scoring_failure_surfaced (c : Classifier) (input : RawUserProfile)
    (f : ScoringFailure) (h : c (deriveFeatures input) = .error f) :
    run_app (.ok c) input
      = .scoringError ("예측 중 오류가 발생했습니다: " ++ f.message) ∧
    ∀ r : PredictionResult, run_app (.ok c) input ≠ .shown r := by
  unfold run_app run_prediction load_model_pipeline
  simp [h]

/-- Witness for the amended C9: a classifier that always fails. -/
theorem scoring_failure_surfaced_witness :
    run_app (.ok fun _ => .error ⟨.inference, "bad value"⟩) sampleProfile
      = .scoringError ("예측 중 오류가 발생했습니다: " ++ "bad value") ∧
    ∀ r : PredictionResult,
      run_app (.ok fun _ => .error ⟨.inference, "bad value"⟩)
        sampleProfile ≠ .shown r :=
  scoring_failure_surfaced (fun _ => .error ⟨.inference, "bad value"⟩)
    sampleProfile ⟨.inference, "bad value"⟩ rfl

/-- C10: for skip rate in `[0, 1]`, the derived satisfaction score lies
between 0 and the raw songs-played count. -/
theorem satisfaction_score_bounds (p : RawUserProfile)
    (h0 : 0 ≤ p.skip_rate) (h1 : p.skip_rate ≤ 1) :
    0 ≤ (deriveFeatures p).satisfaction_score ∧
    (deriveFeatures p).satisfaction_score ≤ (p.songs_played_per_day : ℚ) := by
  have hn : (0 : ℚ) ≤ (p.songs_played_per_day : ℚ) := by positivity
  constructor
  · exact mul_nonneg hn (by linarith)
  · calc (deriveFeatures p).satisfaction_score
        = (p.songs_played_per_day : ℚ) * (1 - p.skip_rate) := rfl
      _ ≤ (p.songs_played_per_day : ℚ) * 1 :=
        mul_le_mul_of_nonneg_left (by linarith) hn
      _ = (p.songs_played_per_day : ℚ) := mul_one _

/-- Witness for C10 at the sample profile. -/
theorem satisfaction_score_bounds_witness :
    0 ≤ (deriveFeatures sampleProfile).satisfaction_score ∧
    (deriveFeatures sampleProfile).satisfaction_score
      ≤ (sampleProfile.songs_played_per_day : ℚ) :=
  satisfaction_score_bounds sampleProfile
    (by norm_num [sampleProfile]) (by norm_num [sampleProfile])

end SpotifyChurn
